import Mathlib

/-!
Shallow embedding of the `rust_tcp` radar streaming system.

Server side (`src/radar_simulator.rs`, `src/tcp_server.rs`):
the portion extractor, the broadcaster tick (readiness counting, sequence
reset, portion assignment, send pass, removal of failed connections) and the
per-connection command session.

Client side (`enhanced_client.rs`): the double buffer, the sliding-window
processor, pair synchronisation and sweep merging.

Intensity samples (`f32` in Rust) are modelled as rationals: every claim under
study is about which rows are selected, concatenated or averaged, never about
floating-point rounding.  `u64` counters and timestamps are modelled as `Nat`
(the code's operating range is far below any wrap point), and Rust slice
expressions `v[a..b]`, which panic when `a > b` or `b > v.len()`, are modelled
by an `Option`-returning slice helper.
-/

set_option maxRecDepth 8000

namespace RustTcp

/-- One azimuth row of intensity samples (`Vec<f32>` in Rust). -/
abbrev Row := List ℚ

/-- `RadarSweep` from `radar_simulator.rs` (the client mirrors the same
struct in `enhanced_client.rs`). -/
structure RadarSweep where
  timestamp : Nat
  sequence_id : Nat
  azimuth_start : Nat
  azimuth_end : Nat
  range_bins : List ℚ
  data : List Row
  overlap_region : List Row
  client_id : Nat
deriving DecidableEq, Repr

/-- `MergedRadarFrame` from `enhanced_client.rs`. -/
structure MergedRadarFrame where
  sequence_id : Nat
  timestamp : Nat
  range_bins : List ℚ
  complete_data : List Row
  azimuth_resolution : ℚ
deriving DecidableEq, Repr

/-- Rust slice `v[a..b]` on a vector of rows: defined exactly when
`a ≤ b ∧ b ≤ v.len()`, panicking (here: `none`) otherwise. -/
def sliceRows (l : List Row) (a b : Nat) : Option (List Row) :=
  if a ≤ b ∧ b ≤ l.length then some ((l.drop a).take (b - a)) else none

/-- `extract_client_portion` (`radar_simulator.rs`).  For client 0 the data is
`data[0..190]`; for client 1 it is `data[170..360]`; for any other id the
`client_data` vector is left empty (neither `if` branch fills it).  The
overlap region is always `data[170..190]`.  The returned sweep copies
`timestamp`, `sequence_id` and `range_bins` from the complete sweep. -/
def extractClientPortion (complete : RadarSweep) (client_id : Nat) : Option RadarSweep :=
  let azBounds : Nat × Nat :=
    match client_id with
    | 0 => (0, 190)
    | 1 => (170, 360)
    | _ => (0, 360)
  let clientData? : Option (List Row) :=
    match client_id with
    | 0 => sliceRows complete.data 0 190
    | 1 => sliceRows complete.data 170 360
    | _ => some []
  match clientData?, sliceRows complete.data 170 190 with
  | some clientData, some overlapData =>
      some { timestamp := complete.timestamp
             sequence_id := complete.sequence_id
             azimuth_start := azBounds.1
             azimuth_end := azBounds.2
             range_bins := complete.range_bins
             data := clientData
             overlap_region := overlapData
             client_id := client_id }
  | _, _ => none

/-! ## Client side: double buffer and sliding-window processor -/

/-- `DoubleBuffer` (`enhanced_client.rs`): two queues plus a flag saying which
one currently accepts writes. -/
structure DoubleBuffer where
  front_buffer : List RadarSweep
  back_buffer : List RadarSweep
  current_front : Bool
  max_buffer_size : Nat
deriving Repr

/-- The queue currently accepting writes. -/
def DoubleBuffer.activeBuffer (b : DoubleBuffer) : List RadarSweep :=
  if b.current_front then b.front_buffer else b.back_buffer

/-- The `push_back` / `pop_front`-on-overflow pattern shared by
`DoubleBuffer::add_sweep` and `SlidingWindowProcessor::add_client_data`:
append, then drop the front element if the capacity is exceeded. -/
def pushEvict (buf : List RadarSweep) (s : RadarSweep) (maxSize : Nat) : List RadarSweep :=
  let buf' := buf ++ [s]
  if buf'.length > maxSize then buf'.tail else buf'

/-- `DoubleBuffer::add_sweep`: push onto the active queue, evicting its oldest
element when `max_buffer_size` is exceeded. -/
def DoubleBuffer.add_sweep (b : DoubleBuffer) (s : RadarSweep) : DoubleBuffer :=
  if b.current_front then
    { b with front_buffer := pushEvict b.front_buffer s b.max_buffer_size }
  else
    { b with back_buffer := pushEvict b.back_buffer s b.max_buffer_size }

/-- `SlidingWindowProcessor` (`enhanced_client.rs`). -/
structure SlidingWindowProcessor where
  window_size : Nat
  client1_data : List RadarSweep
  client2_data : List RadarSweep
  processed_frames : Nat
deriving Repr

/-- `SlidingWindowProcessor::add_client_data`: push into the window of link 0
or link 1, evicting the oldest entry past `window_size`; any other link index
returns with no change. -/
def SlidingWindowProcessor.add_client_data (p : SlidingWindowProcessor)
    (client_id : Nat) (s : RadarSweep) : SlidingWindowProcessor :=
  match client_id with
  | 0 => { p with client1_data := pushEvict p.client1_data s p.window_size }
  | 1 => { p with client2_data := pushEvict p.client2_data s p.window_size }
  | _ => p

/-- `(sweep1.timestamp as i64 - sweep2.timestamp as i64).abs()`, exact for
timestamps below `2^63`. -/
def timeDiff (t1 t2 : Nat) : Nat := ((t1 : ℤ) - (t2 : ℤ)).natAbs

/-- The matching test of `find_synchronized_pair`: equal `sequence_id` and
timestamp difference strictly below `100_000` microseconds. -/
def syncMatch (s1 s2 : RadarSweep) : Bool :=
  s1.sequence_id == s2.sequence_id && timeDiff s1.timestamp s2.timestamp < 100000

/-- Inner loop of `find_synchronized_pair`: scan link 1's window for the
first sweep matching `s1`; on a hit return it together with the window with
that entry removed. -/
def scanW2 (s1 : RadarSweep) : List RadarSweep → Option (RadarSweep × List RadarSweep)
  | [] => none
  | s2 :: rest =>
    if syncMatch s1 s2 then some (s2, rest)
    else
      match scanW2 s1 rest with
      | some (m, rest') => some (m, s2 :: rest')
      | none => none

/-- Outer loop of `find_synchronized_pair`: first matching pair in
lexicographic `(i, j)` order, returned together with both windows with the
matched entries removed. -/
def scanW1 : List RadarSweep → List RadarSweep →
    Option (RadarSweep × RadarSweep × List RadarSweep × List RadarSweep)
  | [], _ => none
  | s1 :: rest1, w2 =>
    match scanW2 s1 w2 with
    | some (s2, w2') => some (s1, s2, rest1, w2')
    | none =>
      match scanW1 rest1 w2 with
      | some (a, b, w1', w2') => some (a, b, s1 :: w1', w2')
      | none => none

/-- `SlidingWindowProcessor::find_synchronized_pair`: the first
sequence-and-timestamp synchronized pair across the two windows, removed from
both windows (the Rust index bookkeeping `if i > j` only orders the two
`remove` calls; its net effect is erasing both matched entries). -/
def SlidingWindowProcessor.find_synchronized_pair (p : SlidingWindowProcessor) :
    Option (RadarSweep × RadarSweep) × SlidingWindowProcessor :=
  match scanW1 p.client1_data p.client2_data with
  | some (s1, s2, w1', w2') =>
      (some (s1, s2), { p with client1_data := w1', client2_data := w2' })
  | none => (none, p)

/-- Per-element average of two rows; Rust's `zip` truncates to the shorter
row, as does `List.zipWith`. -/
def avgRow (r1 r2 : Row) : Row :=
  List.zipWith (fun a b => (a + b) / 2) r1 r2

/-- `SlidingWindowProcessor::merge_overlap_region`: walk row indices, average
where both sides have a row, pass a lone row through unchanged, stop when both
are exhausted. -/
def mergeOverlapRegion : List Row → List Row → List Row
  | [], [] => []
  | r1 :: t1, [] => r1 :: mergeOverlapRegion t1 []
  | [], r2 :: t2 => r2 :: mergeOverlapRegion [] t2
  | r1 :: t1, r2 :: t2 => avgRow r1 r2 :: mergeOverlapRegion t1 t2

/-- `SlidingWindowProcessor::merge_sweeps`: `client1.data[0..170.min(len)]`,
then the merged overlap, then `client2.data[20..]` when link 1's portion has
more than 20 rows; metadata is taken from `client1`. -/
def mergeSweeps (client1 client2 : RadarSweep) : MergedRadarFrame :=
  let client1_main := client1.data.take (min 170 client1.data.length)
  let overlap_merged := mergeOverlapRegion client1.overlap_region client2.overlap_region
  let client2_main := if client2.data.length > 20 then client2.data.drop 20 else []
  { sequence_id := client1.sequence_id
    timestamp := client1.timestamp
    range_bins := client1.range_bins
    complete_data := client1_main ++ overlap_merged ++ client2_main
    azimuth_resolution := 1 }

/-- `SlidingWindowProcessor::try_merge_next_frame`: emit a merged frame
exactly when a synchronized pair is found, bumping `processed_frames`. -/
def SlidingWindowProcessor.try_merge_next_frame (p : SlidingWindowProcessor) :
    Option MergedRadarFrame × SlidingWindowProcessor :=
  match p.find_synchronized_pair with
  | (some (s1, s2), p') =>
      (some (mergeSweeps s1 s2), { p' with processed_frames := p'.processed_frames + 1 })
  | (none, p') => (none, p')

/-! ## Server side: readiness registry, session command loop, broadcaster

The two shared `HashMap`s of `tcp_server.rs` are modelled as association
structures with an explicit iteration order (the spec itself notes that the
`HashMap` iteration order is arbitrary; no claim under study depends on which
order is realised): the readiness map as a `List (Nat × Bool)` with unique
keys understood, the transport map as the `List Nat` of ids holding a live
write half. -/

/-- Readiness map: connection id paired with its `ready` flag. -/
abbrev ReadyMap := List (Nat × Bool)

/-- `ready_map.insert(id, v)` on a `HashMap`: replace the existing entry or
add a new one. -/
def mapInsert (m : ReadyMap) (k : Nat) (v : Bool) : ReadyMap :=
  if m.any (fun p => p.1 = k) then
    m.map (fun p => if p.1 = k then (k, v) else p)
  else m ++ [(k, v)]

/-- `ready_map.get(&id)`. -/
def mapLookup (m : ReadyMap) (k : Nat) : Option Bool :=
  (m.find? (fun p => p.1 = k)).map (fun p => p.2)

/-- `ready_map.remove(&id)`. -/
def mapRemove (m : ReadyMap) (k : Nat) : ReadyMap :=
  m.filter (fun p => p.1 ≠ k)

/-- `ready_map.values().filter(|&&ready| ready).count()` in the broadcaster. -/
def readyCount (m : ReadyMap) : Nat :=
  (m.filter (fun p => p.2)).length

/-- One inbound event on a connection's read half: end of stream (`Ok(0)`),
a decoded (UTF-8, trimmed) command string, or a read error. -/
inductive ReadEvent where
  | closed
  | data (msg : String)
  | readErr
deriving DecidableEq, Repr

/-- One iteration of the read loop of `handle_client_connection`
(`tcp_server.rs`), acting on the shared readiness map and the transport map;
the returned `Bool` is `true` when the loop continues.  `SEND_DATA` marks the
connection ready, `STOP` marks it not ready, any other text only echoes an
error back; end of stream and read errors deregister the connection from both
maps and end the loop. -/
def sessionStep (client_id : Nat) (ready : ReadyMap) (clients : List Nat)
    (ev : ReadEvent) : ReadyMap × List Nat × Bool :=
  match ev with
  | .closed => (mapRemove ready client_id, clients.filter (fun c => c ≠ client_id), false)
  | .readErr => (mapRemove ready client_id, clients.filter (fun c => c ≠ client_id), false)
  | .data msg =>
    if msg = "SEND_DATA" then (mapInsert ready client_id true, clients, true)
    else if msg = "STOP" then (mapInsert ready client_id false, clients, true)
    else (ready, clients, true)

/-- Broadcaster-local state across ticks: the simulator's sequence counter
and `last_ready_count`. -/
structure BroadcasterState where
  seqCounter : Nat
  lastReadyCount : Nat
deriving DecidableEq, Repr

/-- The port-assignment loop of `radar_data_broadcaster`: walk the readiness
map in iteration order and give the first two ready ids that also hold a live
transport the positional port indices `0` and `1` (`sent_count`). -/
def selectPortClients (clients : List Nat) : ReadyMap → Nat → List (Nat × Nat)
  | [], _ => []
  | (id, isReady) :: rest, sentCount =>
    if isReady ∧ sentCount < 2 ∧ clients.contains id then
      (sentCount, id) :: selectPortClients clients rest (sentCount + 1)
    else
      selectPortClients clients rest sentCount

/-- Everything one broadcaster tick produces: the new local state, both maps
after the post-pass removal, the `(port_index, client_id)` sends that
succeeded, and the sequence id of the sweep generated this tick (`none` when
the tick was skipped). -/
structure TickOutput where
  state : BroadcasterState
  ready : ReadyMap
  clients : List Nat
  sent : List (Nat × Nat)
  emitted : Option Nat
deriving Repr

/-- One iteration of the `loop` in `radar_data_broadcaster`
(`tcp_server.rs`), with the outcome of each socket write supplied by
`sendFails`.  Count the ready connections; on a change reset the sequence
counter when the count reaches exactly 2 from below and record the new count
(recording it when unchanged is a no-op, so it is recorded unconditionally
here); skip the tick entirely while fewer than 2 are ready; otherwise
`generate_complete_sweep` pre-increments the counter and stamps the sweep
with it, the first two ready connected ids get port indices 0 and 1, each
selected id is sent its extracted portion, ids whose write fails are queued
and only after the send pass removed from both maps. -/
def broadcasterTick (s : BroadcasterState) (ready : ReadyMap) (clients : List Nat)
    (sendFails : Nat → Bool) : TickOutput :=
  let cnt := readyCount ready
  let seq0 := if cnt = 2 ∧ s.lastReadyCount < 2 then 0 else s.seqCounter
  if cnt < 2 then
    { state := ⟨seq0, cnt⟩, ready := ready, clients := clients,
      sent := [], emitted := none }
  else
    let seq1 := seq0 + 1
    let pcs := selectPortClients clients ready 0
    let attempted := pcs.filter (fun pc => clients.contains pc.2)
    let disconnected := (attempted.filter (fun pc => sendFails pc.2)).map (fun pc => pc.2)
    { state := ⟨seq1, cnt⟩
      ready := ready.filter (fun p => ¬ disconnected.contains p.1)
      clients := clients.filter (fun c => ¬ disconnected.contains c)
      sent := attempted.filter (fun pc => ¬ sendFails pc.2)
      emitted := some seq1 }

/-! ## Concrete fixtures for witnesses and counterexamples -/

/-- Constant intensity rows used by the concrete examples. -/
def exRow : Row := [1]

/-- A second, distinct intensity row. -/
def exRow2 : Row := [3]

/-- A complete 360-row frame. -/
def exFrame360 : RadarSweep :=
  { timestamp := 1000, sequence_id := 5, azimuth_start := 0, azimuth_end := 360,
    range_bins := [3, 7], data := List.replicate 360 exRow,
    overlap_region := [], client_id := 999 }

/-- A frame with exactly 190 azimuth rows. -/
def exFrame190 : RadarSweep :=
  { timestamp := 1000, sequence_id := 5, azimuth_start := 0, azimuth_end := 360,
    range_bins := [3, 7], data := List.replicate 190 exRow,
    overlap_region := [], client_id := 999 }

/-- A portion sweep with given sequence id and timestamp, for the merger
examples. -/
def exSweep (seq t cid : Nat) : RadarSweep :=
  { timestamp := t, sequence_id := seq, azimuth_start := 0, azimuth_end := 190,
    range_bins := [3, 7], data := [], overlap_region := [], client_id := cid }

/-- A processor whose only candidate pair agrees on `sequence_id` but is
exactly 150_000 microseconds apart. -/
def exProc150 : SlidingWindowProcessor :=
  { window_size := 10, client1_data := [exSweep 5 0 0],
    client2_data := [exSweep 5 150000 1], processed_frames := 0 }

/-- Portion-0 sweep with 190 data rows and a 20-row overlap. -/
def exPortion0 : RadarSweep :=
  { timestamp := 1000, sequence_id := 5, azimuth_start := 0, azimuth_end := 190,
    range_bins := [3, 7], data := List.replicate 190 exRow,
    overlap_region := List.replicate 20 exRow, client_id := 0 }

/-- Portion-1 sweep with 190 data rows and a 20-row overlap, 50 microseconds
later. -/
def exPortion1 : RadarSweep :=
  { timestamp := 1050, sequence_id := 5, azimuth_start := 170, azimuth_end := 360,
    range_bins := [3, 7], data := List.replicate 190 exRow2,
    overlap_region := List.replicate 20 exRow2, client_id := 1 }

/-- A send-outcome function under which no write fails. -/
def exNoFail : Nat → Bool := fun _ => false

/-- A send-outcome function under which exactly the write to client 7
fails. -/
def exFail7 : Nat → Bool := fun c => c == 7

/-- Readiness map with a single ready client. -/
def exReadyOne : ReadyMap := [(0, true)]

/-- Readiness map with two ready clients, ids 0 and 1. -/
def exReadyTwo : ReadyMap := [(0, true), (1, true)]

/-- Readiness map with two ready clients, ids 7 and 8. -/
def exReady78 : ReadyMap := [(7, true), (8, true)]

/-! ## Helper lemmas -/

lemma sliceRows_of_le (l : List Row) (a b : Nat) (hab : a ≤ b) (hb : b ≤ l.length) :
    sliceRows l a b = some ((l.drop a).take (b - a)) := by
  simp only [sliceRows]
  rw [if_pos ⟨hab, hb⟩]

lemma sliceRows_of_gt (l : List Row) (a b : Nat) (hb : l.length < b) :
    sliceRows l a b = none := by
  simp only [sliceRows]
  rw [if_neg]
  omega

lemma take_min_left (l : List Row) (n : Nat) : l.take (min n l.length) = l.take n := by
  rcases le_total n l.length with h | h
  · rw [min_eq_left h]
  · rw [min_eq_right h, List.take_of_length_le h, List.take_of_length_le le_rfl]

lemma mergeOverlapRegion_length (o1 o2 : List Row) :
    (mergeOverlapRegion o1 o2).length = max o1.length o2.length := by
  induction o1, o2 using mergeOverlapRegion.induct
  all_goals simp_all [mergeOverlapRegion]
  all_goals omega

lemma mergeOverlapRegion_getElem? (o1 o2 : List Row) (i : Nat) :
    (mergeOverlapRegion o1 o2)[i]? =
      match o1[i]?, o2[i]? with
      | some r1, some r2 => some (avgRow r1 r2)
      | some r1, none => some r1
      | none, some r2 => some r2
      | none, none => none := by
  induction o1, o2 using mergeOverlapRegion.induct generalizing i with
  | case1 => simp [mergeOverlapRegion]
  | case2 r1 t1 ih =>
      cases i with
      | zero => simp [mergeOverlapRegion]
      | succ n => simpa [mergeOverlapRegion] using ih n
  | case3 r2 t2 ih =>
      cases i with
      | zero => simp [mergeOverlapRegion]
      | succ n => simpa [mergeOverlapRegion] using ih n
  | case4 r1 t1 r2 t2 ih =>
      cases i with
      | zero => simp [mergeOverlapRegion]
      | succ n => simpa [mergeOverlapRegion] using ih n

lemma extractClientPortion_zero (F : RadarSweep) (h : 190 ≤ F.data.length) :
    extractClientPortion F 0 = some
      { timestamp := F.timestamp, sequence_id := F.sequence_id,
        azimuth_start := 0, azimuth_end := 190, range_bins := F.range_bins,
        data := F.data.take 190,
        overlap_region := (F.data.drop 170).take 20, client_id := 0 } := by
  simp only [extractClientPortion]
  rw [sliceRows_of_le _ _ _ (by omega) (by omega), sliceRows_of_le _ _ _ (by omega) h]
  simp

lemma extractClientPortion_one (F : RadarSweep) (h : 360 ≤ F.data.length) :
    extractClientPortion F 1 = some
      { timestamp := F.timestamp, sequence_id := F.sequence_id,
        azimuth_start := 170, azimuth_end := 360, range_bins := F.range_bins,
        data := (F.data.drop 170).take 190,
        overlap_region := (F.data.drop 170).take 20, client_id := 1 } := by
  simp only [extractClientPortion]
  rw [sliceRows_of_le _ _ _ (by omega) h, sliceRows_of_le _ _ _ (by omega) (by omega)]

lemma extractClientPortion_one_none (F : RadarSweep) (h : F.data.length < 360) :
    extractClientPortion F 1 = none := by
  simp only [extractClientPortion]
  rw [sliceRows_of_gt _ _ _ h]

lemma extractClientPortion_other (F : RadarSweep) (k : Nat) (h : 190 ≤ F.data.length) :
    extractClientPortion F (k + 2) = some
      { timestamp := F.timestamp, sequence_id := F.sequence_id,
        azimuth_start := 0, azimuth_end := 360, range_bins := F.range_bins,
        data := [],
        overlap_region := (F.data.drop 170).take 20, client_id := k + 2 } := by
  simp only [extractClientPortion]
  rw [sliceRows_of_le _ _ _ (by omega) h]

lemma scanW2_eq_none_iff (s1 : RadarSweep) (w2 : List RadarSweep) :
    scanW2 s1 w2 = none ↔ ∀ s2 ∈ w2, syncMatch s1 s2 = false := by
  induction w2 with
  | nil => simp [scanW2]
  | cons s2 rest ih =>
      by_cases hm : syncMatch s1 s2
      · simp [scanW2, hm]
      · have hm' : syncMatch s1 s2 = false := by simpa using hm
        have hstep : scanW2 s1 (s2 :: rest) = none ↔ scanW2 s1 rest = none := by
          rcases hr : scanW2 s1 rest with _ | ⟨m, rest'⟩
          · simp [scanW2, hm, hr]
          · simp [scanW2, hm, hr]
        rw [hstep, ih, List.forall_mem_cons]
        simp [hm']

lemma scanW1_eq_none_iff (w1 w2 : List RadarSweep) :
    scanW1 w1 w2 = none ↔ ∀ s1 ∈ w1, ∀ s2 ∈ w2, syncMatch s1 s2 = false := by
  induction w1 with
  | nil => simp [scanW1]
  | cons s1 rest1 ih =>
      rcases h2 : scanW2 s1 w2 with _ | ⟨s2, w2'⟩
      · have hstep : scanW1 (s1 :: rest1) w2 = none ↔ scanW1 rest1 w2 = none := by
          rcases hr : scanW1 rest1 w2 with _ | ⟨a, b, w1', w2'⟩
          · simp [scanW1, h2, hr]
          · simp [scanW1, h2, hr]
        rw [hstep, ih, List.forall_mem_cons]
        have hA := (scanW2_eq_none_iff s1 w2).mp h2
        exact ⟨fun hrest => ⟨hA, hrest⟩, fun hand => hand.2⟩
      · constructor
        · intro hc
          simp [scanW1, h2] at hc
        · intro hall
          have hnone := (scanW2_eq_none_iff s1 w2).mpr (List.forall_mem_cons.mp hall).1
          rw [hnone] at h2
          simp at h2

lemma try_merge_isSome_iff (p : SlidingWindowProcessor) :
    (p.try_merge_next_frame.1.isSome = true) ↔
      ¬ (∀ s1 ∈ p.client1_data, ∀ s2 ∈ p.client2_data, syncMatch s1 s2 = false) := by
  rw [← scanW1_eq_none_iff]
  rcases h : scanW1 p.client1_data p.client2_data with _ | ⟨a, b, w1', w2'⟩
  · simp [SlidingWindowProcessor.try_merge_next_frame,
      SlidingWindowProcessor.find_synchronized_pair, h]
  · simp [SlidingWindowProcessor.try_merge_next_frame,
      SlidingWindowProcessor.find_synchronized_pair, h]

lemma mapInsert_cons_of_ne (p : Nat × Bool) (rest : ReadyMap) (k : Nat) (v : Bool)
    (hp : p.1 ≠ k) : mapInsert (p :: rest) k v = p :: mapInsert rest k v := by
  by_cases ha : rest.any (fun q => q.1 = k) <;> simp [mapInsert, List.any_cons, hp, ha]

lemma mapLookup_cons_of_ne (p : Nat × Bool) (rest : ReadyMap) (k : Nat)
    (hp : p.1 ≠ k) : mapLookup (p :: rest) k = mapLookup rest k := by
  simp [mapLookup, List.find?_cons, hp]

lemma mapLookup_mapInsert (m : ReadyMap) (k : Nat) (v : Bool) :
    mapLookup (mapInsert m k v) k = some v := by
  induction m with
  | nil => simp [mapInsert, mapLookup]
  | cons p rest ih =>
      by_cases hp : p.1 = k
      · have hany : (p :: rest).any (fun q => q.1 = k) := by
          simp [List.any_cons, hp]
        simp [mapInsert, hany, mapLookup, List.find?_cons, hp]
      · rw [mapInsert_cons_of_ne p rest k v hp, mapLookup_cons_of_ne p _ k hp, ih]

lemma pushEvict_length_le (buf : List RadarSweep) (s : RadarSweep) (m : Nat)
    (h : buf.length ≤ m) : (pushEvict buf s m).length ≤ m := by
  simp only [pushEvict]
  split
  all_goals simp_all

lemma pushEvict_eq (buf : List RadarSweep) (s : RadarSweep) (m : Nat) :
    pushEvict buf s m =
      if buf.length + 1 > m then (buf ++ [s]).tail else buf ++ [s] := by
  simp [pushEvict]

lemma selectPortClients_mem (clients : List Nat) (ready : ReadyMap) (n pi c : Nat)
    (h : (pi, c) ∈ selectPortClients clients ready n) :
    (c, true) ∈ ready ∧ clients.contains c = true := by
  induction ready generalizing n with
  | nil => simp [selectPortClients] at h
  | cons p rest ih =>
      rcases p with ⟨id, isReady⟩
      simp only [selectPortClients] at h
      split at h
      · rcases List.mem_cons.mp h with heq | hmem
        · rename_i hcond
          obtain ⟨hR, -, hC⟩ := hcond
          cases heq
          exact ⟨by simp [hR], hC⟩
        · obtain ⟨h1, h2⟩ := ih (n + 1) hmem
          exact ⟨List.mem_cons_of_mem _ h1, h2⟩
      · obtain ⟨h1, h2⟩ := ih n h
        exact ⟨List.mem_cons_of_mem _ h1, h2⟩

lemma extractClientPortion_metadata (F : RadarSweep) (h : 360 ≤ F.data.length) (p : Nat) :
    ∃ s, extractClientPortion F p = some s ∧ s.timestamp = F.timestamp ∧
      s.sequence_id = F.sequence_id ∧ s.range_bins = F.range_bins := by
  rcases p with _ | _ | k
  · exact ⟨_, extractClientPortion_zero F (by omega), rfl, rfl, rfl⟩
  · exact ⟨_, extractClientPortion_one F h, rfl, rfl, rfl⟩
  · exact ⟨_, extractClientPortion_other F k (by omega), rfl, rfl, rfl⟩

/-! ## Claims about `extract_client_portion` -/

/-- C4 counterexample: the claim quantifies over every frame with at least
190 azimuth rows, but on a frame with exactly 190 rows
`extract_client_portion(F, 1)` evaluates `data[170..360]` on a 190-row
vector, which panics (modelled as `none`), so `extract(F, 1).overlap_region`
does not exist there. -/
theorem extract_overlap_claim_cex :
    ¬ (∀ F : RadarSweep, 190 ≤ F.data.length →
        ∃ s0 s1, extractClientPortion F 0 = some s0 ∧
          extractClientPortion F 1 = some s1 ∧
          s0.overlap_region = s1.overlap_region ∧
          s0.overlap_region = (F.data.drop 170).take 20) := by
  intro h
  obtain ⟨s0, s1, -, h1, -, -⟩ := h exFrame190 (by simp [exFrame190])
  rw [extractClientPortion_one_none exFrame190 (by simp [exFrame190])] at h1
  exact Option.noConfusion h1

/-- C4 (amended: the frame needs at least 360 azimuth rows, since portion 1
slices `data[170..360]`): both portions extracted from one complete frame
carry the same overlap region, namely rows `[170, 190)` of the frame. -/
theorem extract_overlap_region_eq (F : RadarSweep) (h : 360 ≤ F.data.length) :
    ∃ s0 s1, extractClientPortion F 0 = some s0 ∧
      extractClientPortion F 1 = some s1 ∧
      s0.overlap_region = s1.overlap_region ∧
      s0.overlap_region = (F.data.drop 170).take 20 :=
  ⟨_, _, extractClientPortion_zero F (by omega), extractClientPortion_one F h, rfl, rfl⟩

/-- C4 witness: the amended statement applied to the concrete 360-row
frame. -/
theorem extract_overlap_region_eq_witness :
    360 ≤ exFrame360.data.length ∧
      ∃ s0 s1, extractClientPortion exFrame360 0 = some s0 ∧
        extractClientPortion exFrame360 1 = some s1 ∧
        s0.overlap_region = s1.overlap_region ∧
        s0.overlap_region = (exFrame360.data.drop 170).take 20 :=
  ⟨by simp [exFrame360], extract_overlap_region_eq exFrame360 (by simp [exFrame360])⟩

/-- C5: on a 360-row complete frame, portion 0's data is rows `[0, 190)`,
portion 1's data is rows `[170, 360)`, both 190 rows long, every index below
190 is covered by portion 0, every index in `[170, 360)` by portion 1, and
every index below 360 lies in at least one of the two ranges (indices in
`[170, 190)` in both). -/
theorem extract_portion_coverage (F : RadarSweep) (h : F.data.length = 360) :
    ∃ s0 s1, extractClientPortion F 0 = some s0 ∧
      extractClientPortion F 1 = some s1 ∧
      s0.data = F.data.take 190 ∧ s1.data = F.data.drop 170 ∧
      s0.data.length = 190 ∧ s1.data.length = 190 ∧
      (∀ i, i < 190 → s0.data[i]? = F.data[i]?) ∧
      (∀ i, 170 ≤ i → i < 360 → s1.data[i - 170]? = F.data[i]?) ∧
      (∀ i, i < 360 → i < 190 ∨ 170 ≤ i) := by
  have hdrop : (F.data.drop 170).take 190 = F.data.drop 170 :=
    List.take_of_length_le (by simp [h])
  refine ⟨_, _, extractClientPortion_zero F (by omega),
    extractClientPortion_one F (by omega), rfl, hdrop, by simp [h], by simp [hdrop, h],
    ?_, ?_, by omega⟩
  · intro i hi
    simp only []
    rw [List.getElem?_take, if_pos hi]
  · intro i hi170 hi360
    simp only [hdrop]
    rw [List.getElem?_drop]
    congr 1
    omega

/-- C5 witness: the coverage statement applied to the concrete 360-row
frame. -/
theorem extract_portion_coverage_witness :
    exFrame360.data.length = 360 ∧
      ∃ s0 s1, extractClientPortion exFrame360 0 = some s0 ∧
        extractClientPortion exFrame360 1 = some s1 ∧
        s0.data = exFrame360.data.take 190 ∧ s1.data = exFrame360.data.drop 170 ∧
        s0.data.length = 190 ∧ s1.data.length = 190 ∧
        (∀ i, i < 190 → s0.data[i]? = exFrame360.data[i]?) ∧
        (∀ i, 170 ≤ i → i < 360 → s1.data[i - 170]? = exFrame360.data[i]?) ∧
        (∀ i, i < 360 → i < 190 ∨ 170 ≤ i) :=
  ⟨by simp [exFrame360], extract_portion_coverage exFrame360 (by simp [exFrame360])⟩

/-- C6 counterexample: for an unknown portion id the code only falls back to
the azimuth *labels* `(0, 360)`; the `client_data` vector is never filled (it
stays empty, covering no rows at all) and the overlap region is the usual
`data[170..190]` slice, not empty. -/
theorem extract_fallback_claim_cex :
    ¬ (∀ (F : RadarSweep) (p : Nat), p ≠ 0 → p ≠ 1 →
        ∃ s, extractClientPortion F p = some s ∧ s.azimuth_start = 0 ∧
          s.azimuth_end = 360 ∧ s.data = F.data ∧ s.overlap_region = []) := by
  intro h
  obtain ⟨s, hs, -, -, hdata, -⟩ := h exFrame360 2 (by omega) (by omega)
  rw [extractClientPortion_other exFrame360 0 (by simp [exFrame360])] at hs
  replace hs := Option.some.inj hs
  rw [← hs] at hdata
  have hlen := congrArg List.length hdata
  simp [exFrame360] at hlen

/-- C6 (amended: the fallback keeps the full-range azimuth labels but returns
an *empty* data vector and the ordinary `[170, 190)` overlap slice, and — like
every call — panics if the frame has fewer than 190 rows). -/
theorem extract_fallback (F : RadarSweep) (p : Nat) (h0 : p ≠ 0) (h1 : p ≠ 1)
    (h : 190 ≤ F.data.length) :
    ∃ s, extractClientPortion F p = some s ∧ s.azimuth_start = 0 ∧
      s.azimuth_end = 360 ∧ s.data = [] ∧
      s.overlap_region = (F.data.drop 170).take 20 ∧ s.client_id = p := by
  obtain ⟨k, rfl⟩ : ∃ k, p = k + 2 := by
    rcases p with _ | _ | k
    · exact absurd rfl h0
    · exact absurd rfl h1
    · exact ⟨k, rfl⟩
  exact ⟨_, extractClientPortion_other F k h, rfl, rfl, rfl, rfl, rfl⟩

/-- C6 witness: the amended fallback statement applied to the concrete
360-row frame with portion id 2. -/
theorem extract_fallback_witness :
    (2 ≠ 0 ∧ 2 ≠ 1 ∧ 190 ≤ exFrame360.data.length) ∧
      ∃ s, extractClientPortion exFrame360 2 = some s ∧ s.azimuth_start = 0 ∧
        s.azimuth_end = 360 ∧ s.data = [] ∧
        s.overlap_region = (exFrame360.data.drop 170).take 20 ∧ s.client_id = 2 :=
  ⟨⟨by omega, by omega, by simp [exFrame360]⟩,
    extract_fallback exFrame360 2 (by omega) (by omega) (by simp [exFrame360])⟩

/-- C10: extracting any portion id from a complete (360-row) frame preserves
`timestamp`, `sequence_id` and `range_bins`; hence two portions of the same
frame always agree on `sequence_id`, have timestamp difference 0, and satisfy
the merger's matching predicate. -/
theorem extract_metadata_sync (F : RadarSweep) (h : F.data.length = 360) (p q : Nat) :
    (∃ s, extractClientPortion F p = some s ∧ s.timestamp = F.timestamp ∧
        s.sequence_id = F.sequence_id ∧ s.range_bins = F.range_bins) ∧
    (∀ sp sq, extractClientPortion F p = some sp → extractClientPortion F q = some sq →
        sp.sequence_id = sq.sequence_id ∧ timeDiff sp.timestamp sq.timestamp = 0 ∧
        syncMatch sp sq = true) := by
  refine ⟨extractClientPortion_metadata F (by omega) p, ?_⟩
  intro sp sq hp hq
  obtain ⟨s, hs, ht, hq', hr⟩ := extractClientPortion_metadata F (by omega) p
  obtain ⟨s', hs', ht', hq'', hr'⟩ := extractClientPortion_metadata F (by omega) q
  have hsp : sp = s := Option.some.inj (hp.symm.trans hs)
  have hsq : sq = s' := Option.some.inj (hq.symm.trans hs')
  subst hsp hsq
  refine ⟨by rw [hq', hq''], ?_, ?_⟩
  · simp [timeDiff, ht, ht']
  · simp [syncMatch, timeDiff, ht, ht', hq', hq'']

/-- C10 witness: the metadata statement applied to the concrete 360-row frame
and portion ids 0 and 1. -/
theorem extract_metadata_sync_witness :
    (∃ s, extractClientPortion exFrame360 0 = some s ∧
        s.timestamp = exFrame360.timestamp ∧
        s.sequence_id = exFrame360.sequence_id ∧
        s.range_bins = exFrame360.range_bins) ∧
    (∀ sp sq, extractClientPortion exFrame360 0 = some sp →
        extractClientPortion exFrame360 1 = some sq →
        sp.sequence_id = sq.sequence_id ∧ timeDiff sp.timestamp sq.timestamp = 0 ∧
        syncMatch sp sq = true) :=
  extract_metadata_sync exFrame360 (by simp [exFrame360]) 0 1

/-! ## Claims about the sliding-window merger -/

/-- C2: `try_merge_next_frame` emits a merged frame iff the two windows hold
a pair with equal `sequence_id` and timestamp difference strictly below
100_000 microseconds; in particular, when every equal-`sequence_id` pair is
exactly 150_000 microseconds apart nothing is emitted. -/
theorem merger_emits_iff_sync_pair (p : SlidingWindowProcessor) :
    (p.try_merge_next_frame.1.isSome = true ↔
      ∃ s1 ∈ p.client1_data, ∃ s2 ∈ p.client2_data,
        s1.sequence_id = s2.sequence_id ∧
        timeDiff s1.timestamp s2.timestamp < 100000) ∧
    ((∀ s1 ∈ p.client1_data, ∀ s2 ∈ p.client2_data,
        s1.sequence_id = s2.sequence_id →
        timeDiff s1.timestamp s2.timestamp = 150000) →
      p.try_merge_next_frame.1 = none) := by
  have hiff : p.try_merge_next_frame.1.isSome = true ↔
      ∃ s1 ∈ p.client1_data, ∃ s2 ∈ p.client2_data,
        s1.sequence_id = s2.sequence_id ∧
        timeDiff s1.timestamp s2.timestamp < 100000 := by
    rw [try_merge_isSome_iff]
    constructor
    · intro hne
      by_contra hno
      apply hne
      intro s1 h1 s2 h2
      cases hsm : syncMatch s1 s2
      · rfl
      · exfalso
        apply hno
        refine ⟨s1, h1, s2, h2, ?_⟩
        simpa [syncMatch] using hsm
    · rintro ⟨s1, h1, s2, h2, hseq, hdiff⟩ hall
      have hfalse := hall s1 h1 s2 h2
      simp [syncMatch, hseq, hdiff] at hfalse
  refine ⟨hiff, ?_⟩
  intro hall
  cases hopt : p.try_merge_next_frame.1 with
  | none => rfl
  | some m =>
      have hsome : p.try_merge_next_frame.1.isSome = true := by simp [hopt]
      obtain ⟨s1, h1, s2, h2, hseq, hdiff⟩ := hiff.mp hsome
      have h150 := hall s1 h1 s2 h2 hseq
      omega

/-- C2 witness: on the concrete processor whose only equal-sequence pair is
150_000 microseconds apart, no frame is emitted. -/
theorem merger_emits_iff_sync_pair_witness :
    exProc150.try_merge_next_frame.1 = none :=
  (merger_emits_iff_sync_pair exProc150).2 (by decide)

/-- C3: a merged frame is portion-0-main (rows `0..170` of portion 0), then
the merged overlap (per-element average where both sides have the row, the
lone row passed through otherwise), then portion 1's rows from index 20 on;
its `sequence_id`, `timestamp` and `range_bins` come from portion 0; for
190-row portions with 20-row overlaps the result has 170 + 20 + 170 = 360
rows. -/
theorem merged_frame_concatenation (c1 c2 : RadarSweep) :
    (mergeSweeps c1 c2).complete_data =
        c1.data.take 170 ++ mergeOverlapRegion c1.overlap_region c2.overlap_region ++
          c2.data.drop 20 ∧
    (mergeSweeps c1 c2).sequence_id = c1.sequence_id ∧
    (mergeSweeps c1 c2).timestamp = c1.timestamp ∧
    (mergeSweeps c1 c2).range_bins = c1.range_bins ∧
    (∀ (i : Nat) (r1 r2 : Row), c1.overlap_region[i]? = some r1 →
        c2.overlap_region[i]? = some r2 →
        (mergeOverlapRegion c1.overlap_region c2.overlap_region)[i]? =
          some (avgRow r1 r2)) ∧
    (∀ (i : Nat) (r1 : Row), c1.overlap_region[i]? = some r1 →
        c2.overlap_region[i]? = none →
        (mergeOverlapRegion c1.overlap_region c2.overlap_region)[i]? = some r1) ∧
    (∀ (i : Nat) (r2 : Row), c1.overlap_region[i]? = none →
        c2.overlap_region[i]? = some r2 →
        (mergeOverlapRegion c1.overlap_region c2.overlap_region)[i]? = some r2) ∧
    (c1.data.length = 190 → c2.data.length = 190 → c1.overlap_region.length = 20 →
        c2.overlap_region.length = 20 →
        (mergeSweeps c1 c2).complete_data.length = 360) := by
  have hmain : (mergeSweeps c1 c2).complete_data =
      c1.data.take 170 ++ mergeOverlapRegion c1.overlap_region c2.overlap_region ++
        c2.data.drop 20 := by
    simp only [mergeSweeps]
    rw [take_min_left]
    by_cases hlen : c2.data.length > 20
    · rw [if_pos hlen]
    · rw [if_neg hlen, List.drop_eq_nil_of_le (by omega)]
  refine ⟨hmain, rfl, rfl, rfl, ?_, ?_, ?_, ?_⟩
  · intro i r1 r2 h1 h2
    rw [mergeOverlapRegion_getElem?, h1, h2]
  · intro i r1 h1 h2
    rw [mergeOverlapRegion_getElem?, h1, h2]
  · intro i r2 h1 h2
    rw [mergeOverlapRegion_getElem?, h1, h2]
  · intro hd1 hd2 ho1 ho2
    rw [hmain]
    simp [mergeOverlapRegion_length, hd1, hd2, ho1, ho2]

/-- C3 witness: merging the concrete 190-row portions yields 360 rows, the
metadata of portion 0, and the first overlap row is the average of the two
sides' first overlap rows. -/
theorem merged_frame_concatenation_witness :
    (mergeSweeps exPortion0 exPortion1).complete_data.length = 360 ∧
    (mergeSweeps exPortion0 exPortion1).sequence_id = exPortion0.sequence_id ∧
    (mergeOverlapRegion exPortion0.overlap_region exPortion1.overlap_region)[0]? =
      some (avgRow exRow exRow2) := by
  have h := merged_frame_concatenation exPortion0 exPortion1
  refine ⟨h.2.2.2.2.2.2.2 (by simp [exPortion0]) (by simp [exPortion1])
      (by simp [exPortion0]) (by simp [exPortion1]), h.2.1, ?_⟩
  exact h.2.2.2.2.1 0 exRow exRow2 rfl rfl

/-! ## Claims about the broadcaster and the command sessions -/

/-- C1: while fewer than 2 clients are ready a tick generates and sends
nothing (and leaves the sequence counter alone); on a transition of the ready
count from below 2 to exactly 2 the sequence counter is reset to zero before
the tick's single increment, so the tick emits sweep 1 whatever the counter
held before; and while the ready count stays at 2 each tick emits exactly the
incremented counter, so successive `sequence_id`s increase by one per tick
with no further reset. -/
theorem broadcaster_tick_behavior (s : BroadcasterState) (ready : ReadyMap)
    (clients : List Nat) (sendFails : Nat → Bool) :
    (readyCount ready < 2 →
        broadcasterTick s ready clients sendFails =
          { state := ⟨s.seqCounter, readyCount ready⟩, ready := ready,
            clients := clients, sent := [], emitted := none }) ∧
    (readyCount ready = 2 → s.lastReadyCount < 2 →
        (broadcasterTick s ready clients sendFails).state.seqCounter = 1 ∧
        (broadcasterTick s ready clients sendFails).state.lastReadyCount = 2 ∧
        (broadcasterTick s ready clients sendFails).emitted = some 1) ∧
    (readyCount ready = 2 → s.lastReadyCount = 2 →
        (broadcasterTick s ready clients sendFails).state.seqCounter = s.seqCounter + 1 ∧
        (broadcasterTick s ready clients sendFails).state.lastReadyCount = 2 ∧
        (broadcasterTick s ready clients sendFails).emitted = some (s.seqCounter + 1)) := by
  refine ⟨?_, ?_, ?_⟩
  · intro h
    have hne : ¬ (readyCount ready = 2 ∧ s.lastReadyCount < 2) := by omega
    simp [broadcasterTick, h, hne]
  · intro h2 hlast
    simp [broadcasterTick, h2, hlast]
  · intro h2 hlast
    have hne : ¬ s.lastReadyCount < 2 := by omega
    simp [broadcasterTick, h2, hne]

/-- C1 witness: the three tick behaviours at concrete inputs — a skipped tick
with one ready client, the reset-and-emit-1 on the 1 → 2 transition against a
stale counter of 5, and the increment to 6 while the pair stays ready. -/
theorem broadcaster_tick_behavior_witness :
    (broadcasterTick ⟨5, 1⟩ exReadyOne [0] exNoFail).emitted = none ∧
    (broadcasterTick ⟨5, 1⟩ exReadyTwo [0, 1] exNoFail).emitted = some 1 ∧
    (broadcasterTick ⟨5, 2⟩ exReadyTwo [0, 1] exNoFail).emitted = some (5 + 1) := by
  refine ⟨?_, ?_, ?_⟩
  · rw [(broadcaster_tick_behavior ⟨5, 1⟩ exReadyOne [0] exNoFail).1 (by decide)]
  · exact ((broadcaster_tick_behavior ⟨5, 1⟩ exReadyTwo [0, 1] exNoFail).2.1
      (by decide) (by decide)).2.2
  · exact ((broadcaster_tick_behavior ⟨5, 2⟩ exReadyTwo [0, 1] exNoFail).2.2
      (by decide) (by decide)).2.2

/-- C7: in a broadcasting tick, a selected client whose send fails is removed
from both the readiness and the transport map; the removal only happens after
the send pass, so every other selected client whose own send succeeds is
still sent to in the same tick; and a client absent from the readiness map —
as a removed client is in every later tick — is never sent to. -/
theorem broadcaster_failed_send_removal (s : BroadcasterState) (ready : ReadyMap)
    (clients : List Nat) (sendFails : Nat → Bool) (c pi : Nat) :
    (¬ readyCount ready < 2 → (pi, c) ∈ selectPortClients clients ready 0 →
        sendFails c = true →
        (∀ q ∈ (broadcasterTick s ready clients sendFails).ready, q.1 ≠ c) ∧
        c ∉ (broadcasterTick s ready clients sendFails).clients) ∧
    (¬ readyCount ready < 2 →
        ∀ pj d, (pj, d) ∈ selectPortClients clients ready 0 → sendFails d = false →
          (pj, d) ∈ (broadcasterTick s ready clients sendFails).sent) ∧
    ((∀ q ∈ ready, q.1 ≠ c) →
        ∀ pj, (pj, c) ∉ (broadcasterTick s ready clients sendFails).sent) := by
  refine ⟨?_, ?_, ?_⟩
  · intro hge hmem hfail
    obtain ⟨-, hcont⟩ := selectPortClients_mem clients ready 0 pi c hmem
    simp only [broadcasterTick, if_neg hge]
    have hdisc : c ∈ ((selectPortClients clients ready 0).filter
        (fun pc => clients.contains pc.2) |>.filter
        (fun pc => sendFails pc.2)).map (fun pc => pc.2) := by
      refine List.mem_map.mpr ⟨(pi, c), ?_, rfl⟩
      refine List.mem_filter.mpr ⟨List.mem_filter.mpr ⟨hmem, ?_⟩, ?_⟩
      · simpa using hcont
      · simpa using hfail
    constructor
    · intro q hq hqc
      have hmf := (List.mem_filter.mp hq).2
      rw [hqc, decide_eq_true_eq] at hmf
      exact hmf (List.elem_eq_true_of_mem hdisc)
    · intro hc
      have hmf := (List.mem_filter.mp hc).2
      rw [decide_eq_true_eq] at hmf
      exact hmf (List.elem_eq_true_of_mem hdisc)
  · intro hge pj d hmem hok
    obtain ⟨-, hcont⟩ := selectPortClients_mem clients ready 0 pj d hmem
    simp only [broadcasterTick, if_neg hge]
    refine List.mem_filter.mpr ⟨List.mem_filter.mpr ⟨hmem, ?_⟩, ?_⟩
    · simpa using hcont
    · simp [hok]
  · intro hnone pj hsent
    by_cases hge : readyCount ready < 2
    · simp [broadcasterTick, hge] at hsent
    · simp only [broadcasterTick, if_neg hge] at hsent
      have h1 := (List.mem_filter.mp hsent).1
      have h2 := (List.mem_filter.mp h1).1
      obtain ⟨hrdy, -⟩ := selectPortClients_mem clients ready 0 pj c h2
      exact absurd rfl (hnone (c, true) hrdy)

/-- C7 witness: with ready clients 7 and 8 both connected and the write to 7
failing, client 7 leaves both maps, client 8 is still sent to in the same
tick, and a tick taken from maps lacking client 7 sends nothing to it. -/
theorem broadcaster_failed_send_removal_witness :
    ((∀ q ∈ (broadcasterTick ⟨5, 2⟩ exReady78 [7, 8] exFail7).ready, q.1 ≠ 7) ∧
      7 ∉ (broadcasterTick ⟨5, 2⟩ exReady78 [7, 8] exFail7).clients) ∧
    (1, 8) ∈ (broadcasterTick ⟨5, 2⟩ exReady78 [7, 8] exFail7).sent ∧
    (∀ pj, (pj, 7) ∉ (broadcasterTick ⟨6, 2⟩ [(8, true)] [8] exFail7).sent) := by
  refine ⟨?_, ?_, ?_⟩
  · exact (broadcaster_failed_send_removal ⟨5, 2⟩ exReady78 [7, 8] exFail7 7 0).1
      (by decide) (by decide) (by decide)
  · exact (broadcaster_failed_send_removal ⟨5, 2⟩ exReady78 [7, 8] exFail7 7 0).2.1
      (by decide) 1 8 (by decide) (by decide)
  · exact (broadcaster_failed_send_removal ⟨6, 2⟩ [(8, true)] [8] exFail7 7 0).2.2
      (by decide)

/-- C8: `SEND_DATA` is idempotent (after one or two consecutive `SEND_DATA`
commands the connection's ready flag is `true`), `STOP` is idempotent (after
one or two consecutive `STOP` commands the flag is `false`), and neither
command breaks the session's read loop. -/
theorem session_commands_idempotent (id : Nat) (ready : ReadyMap) (clients : List Nat) :
    (mapLookup (sessionStep id ready clients (.data "SEND_DATA")).1 id = some true ∧
      (sessionStep id ready clients (.data "SEND_DATA")).2.2 = true ∧
      mapLookup (sessionStep id (sessionStep id ready clients (.data "SEND_DATA")).1
          (sessionStep id ready clients (.data "SEND_DATA")).2.1
          (.data "SEND_DATA")).1 id = some true ∧
      (sessionStep id (sessionStep id ready clients (.data "SEND_DATA")).1
          (sessionStep id ready clients (.data "SEND_DATA")).2.1
          (.data "SEND_DATA")).2.2 = true) ∧
    (mapLookup (sessionStep id ready clients (.data "STOP")).1 id = some false ∧
      (sessionStep id ready clients (.data "STOP")).2.2 = true ∧
      mapLookup (sessionStep id (sessionStep id ready clients (.data "STOP")).1
          (sessionStep id ready clients (.data "STOP")).2.1
          (.data "STOP")).1 id = some false ∧
      (sessionStep id (sessionStep id ready clients (.data "STOP")).1
          (sessionStep id ready clients (.data "STOP")).2.1
          (.data "STOP")).2.2 = true) := by
  have hS : ∀ (m : ReadyMap) (cl : List Nat),
      sessionStep id m cl (.data "SEND_DATA") = (mapInsert m id true, cl, true) := by
    intro m cl
    simp [sessionStep]
  have hT : ∀ (m : ReadyMap) (cl : List Nat),
      sessionStep id m cl (.data "STOP") = (mapInsert m id false, cl, true) := by
    intro m cl
    simp [sessionStep]
  refine ⟨⟨?_, ?_, ?_, ?_⟩, ?_, ?_, ?_, ?_⟩ <;>
    simp [hS, hT, mapLookup_mapInsert]

/-- C9: both `add` operations append the new item at the back of the selected
sequence and, exactly when the capacity bound would be exceeded, evict the
front (oldest) element, so a sequence within its bound stays within its
bound. -/
theorem add_preserves_capacity (b : DoubleBuffer) (p : SlidingWindowProcessor)
    (s : RadarSweep) :
    ((b.add_sweep s).activeBuffer = pushEvict b.activeBuffer s b.max_buffer_size) ∧
    (b.activeBuffer.length ≤ b.max_buffer_size →
        (b.add_sweep s).activeBuffer.length ≤ b.max_buffer_size) ∧
    (b.activeBuffer.length + 1 ≤ b.max_buffer_size →
        (b.add_sweep s).activeBuffer = b.activeBuffer ++ [s]) ∧
    (b.activeBuffer ≠ [] → b.max_buffer_size < b.activeBuffer.length + 1 →
        (b.add_sweep s).activeBuffer = b.activeBuffer.tail ++ [s]) ∧
    ((p.add_client_data 0 s).client1_data = pushEvict p.client1_data s p.window_size) ∧
    ((p.add_client_data 0 s).client2_data = p.client2_data) ∧
    ((p.add_client_data 1 s).client2_data = pushEvict p.client2_data s p.window_size) ∧
    ((p.add_client_data 1 s).client1_data = p.client1_data) ∧
    (p.client1_data.length ≤ p.window_size →
        (p.add_client_data 0 s).client1_data.length ≤ p.window_size) ∧
    (p.client2_data.length ≤ p.window_size →
        (p.add_client_data 1 s).client2_data.length ≤ p.window_size) := by
  have hact : (b.add_sweep s).activeBuffer = pushEvict b.activeBuffer s b.max_buffer_size := by
    cases hb : b.current_front <;>
      simp [DoubleBuffer.add_sweep, DoubleBuffer.activeBuffer, hb]
  refine ⟨hact, ?_, ?_, ?_, rfl, rfl, rfl, rfl, ?_, ?_⟩
  · intro h
    rw [hact]
    exact pushEvict_length_le _ _ _ h
  · intro h
    rw [hact, pushEvict_eq, if_neg (by omega)]
  · intro hne h
    rw [hact, pushEvict_eq, if_pos (by omega), List.tail_append_of_ne_nil hne]
  · intro h
    exact pushEvict_length_le _ _ _ h
  · intro h
    exact pushEvict_length_le _ _ _ h

/-- C9 witness: a full one-slot double buffer and full one-slot windows —
adding keeps both at their bounds, with the old front element evicted. -/
theorem add_preserves_capacity_witness :
    (({ front_buffer := [exSweep 1 0 0], back_buffer := [], current_front := true,
        max_buffer_size := 1 : DoubleBuffer }.add_sweep
          (exSweep 2 5 0)).activeBuffer.length ≤ 1) ∧
    (({ window_size := 1, client1_data := [exSweep 1 0 0], client2_data := [],
        processed_frames := 0 : SlidingWindowProcessor }.add_client_data 0
          (exSweep 2 5 0)).client1_data.length ≤ 1) ∧
    (({ front_buffer := [exSweep 1 0 0], back_buffer := [], current_front := true,
        max_buffer_size := 1 : DoubleBuffer }.add_sweep
          (exSweep 2 5 0)).activeBuffer = [exSweep 1 0 0].tail ++ [exSweep 2 5 0]) := by
  refine ⟨?_, ?_, ?_⟩
  · exact (add_preserves_capacity _
      { window_size := 1, client1_data := [], client2_data := [], processed_frames := 0 }
      (exSweep 2 5 0)).2.1 (by decide)
  · exact (add_preserves_capacity
      { front_buffer := [], back_buffer := [], current_front := true, max_buffer_size := 1 }
      _ (exSweep 2 5 0)).2.2.2.2.2.2.2.2.1 (by decide)
  · exact (add_preserves_capacity _
      { window_size := 1, client1_data := [], client2_data := [], processed_frames := 0 }
      (exSweep 2 5 0)).2.2.2.1 (by decide) (by decide)

end RustTcp
